import Mathlib

/-!
Shallow embedding of the media-saver bot (sources: `manager_and_bot.py`,
`user_media_saver.py`) and proofs about its login handshake, session-task
registry, rendezvous futures, media relay handler and durable id store.

Conventions:
* Python strings are Lean `String`s; `str.strip()` is modelled over the
  character list (`pyStrip`), `str.isdigit()` as `pyIsDigit` (ASCII digits).
* `asyncio.Future` is `Future := Option (Option String)`: `none` is a pending
  future, `some v` a future fulfilled with `v` (where `v = none` is Python's
  `None` sentinel, `v = some s` a real string).
* The per-user asyncio task running `run_user_instance` is abstracted by its
  observable state `TState`: `authenticating` while the coroutine body runs,
  `watching` once it has returned an id but its spawned watch loop
  (`run_until_disconnected`) is still alive, `failed`/`cancelled` terminal.
* The dict `active_user_telethon_tasks` is an association list with dict
  semantics (assignment replaces the binding for a key).
-/

/-- Python `str.strip()` on a character list: drop leading and trailing
whitespace. -/
def stripChars (l : List Char) : List Char :=
  ((l.dropWhile Char.isWhitespace).reverse.dropWhile Char.isWhitespace).reverse

/-- Python `str.strip()`. -/
def pyStrip (s : String) : String :=
  ⟨stripChars s.data⟩

/-- Python `str.isdigit()` restricted to ASCII digits: true iff the string is
nonempty and every character is a decimal digit. -/
def pyIsDigit (s : String) : Bool :=
  !s.data.isEmpty && s.data.all Char.isDigit

/-- Python `str(n)` for a nonnegative integer `n`: decimal digits, most
significant first. -/
def digitsToString (n : Nat) : String :=
  if n = 0 then "0" else ⟨((Nat.digits 10 n).reverse.map Nat.digitChar)⟩

/-- Python `int(s)` on a digit string: parse base-10, most significant first. -/
def strToNat (s : String) : Nat :=
  Nat.ofDigits 10 ((s.data.map (fun c => c.toNat - 48)).reverse)

/-! ## Rendezvous futures (`asyncio.Future` as used by `manager_and_bot.py`) -/

/-- A one-shot rendezvous slot: `none` is pending, `some v` is fulfilled with
`v` (`v = none` models `set_result(None)`, the "none" sentinel). -/
def Future : Type := Option (Option String)

instance : DecidableEq Future := by unfold Future; infer_instance

/-- Python `future.done()`. -/
def Future.done (f : Future) : Bool :=
  (f : Option (Option String)).isSome

/-- Python `future.set_result(v)`: raises `InvalidStateError` (modelled as
`Except.error`) when the future is already done. -/
def Future.set_result (f : Future) (v : Option String) : Except Unit Future :=
  if f.done then .error () else .ok (some v)

/-- The guarded fulfillment idiom used by every coordinator handler:
`if not fut.done(): fut.set_result(v)` (a no-op on an already-done future). -/
def fulfillIfPending (f : Future) (v : Option String) : Except Unit Future :=
  if f.done then .ok f else f.set_result v

/-! ## Session-task states and the registry `active_user_telethon_tasks` -/

/-- Observable state of the per-user session work started by `received_phone`:
`authenticating` while the `run_user_instance` coroutine body is still
executing, `watching` once it has returned an account id while its spawned
`run_until_disconnected` watch loop is still alive, `failed` / `cancelled`
terminal. -/
inductive TState
  | authenticating
  | watching
  | failed
  | cancelled
  deriving DecidableEq, Repr

/-- Python `task.done()` for the asyncio task wrapping `run_user_instance`:
true as soon as the coroutine body has returned or been cancelled — in
particular true in state `watching`, where the watch loop is still live. -/
def TState.taskDone : TState → Bool
  | .authenticating => false
  | _ => true

/-- The session task is live in the spec's sense: the account-client work for
this user (authentication or the watch phase) is still running. -/
def TState.live : TState → Bool
  | .authenticating => true
  | .watching => true
  | _ => false

/-- Python `task.cancel()` followed by the task winding down: a task whose
coroutine body is still running becomes `cancelled`; a done task (including
`watching`, whose inner watch loop is a separate task) is unaffected. -/
def TState.cancel (t : TState) : TState :=
  if t.taskDone then t else .cancelled

/-- The dict `active_user_telethon_tasks`, with dict semantics: at most one
binding per key, assignment replaces. -/
def Registry : Type := List (Nat × TState)

instance : DecidableEq Registry := by unfold Registry; infer_instance

/-- Dict lookup `d.get(k)`. -/
def Registry.lookup (r : Registry) (k : Nat) : Option TState :=
  (r.find? (fun p => p.1 == k)).map (·.2)

/-- Dict assignment `d[k] = v`. -/
def Registry.insertR (r : Registry) (k : Nat) (v : TState) : Registry :=
  (k, v) :: r.filter (fun p => p.1 != k)

/-- Dict removal `d.pop(k, None)`: the dict without `k`, and the popped value. -/
def Registry.popR (r : Registry) (k : Nat) : Registry × Option TState :=
  (r.filter (fun p => p.1 != k), r.lookup k)

/-- Dict key uniqueness: a Python dict never holds two entries for one key. -/
def Registry.keysNodup (r : Registry) : Prop :=
  (r.map Prod.fst).Nodup

/-! ## Conversation states and user-visible messages -/

/-- `AWAIT_PHONE, AWAIT_CODE, AWAIT_PASSWORD = range(3)` plus
`ConversationHandler.END`. -/
inductive ConvState
  | AWAIT_PHONE
  | AWAIT_CODE
  | AWAIT_PASSWORD
  | END
  deriving DecidableEq, Repr

/-- Credential-rejection signals re-raised by `run_user_instance` and caught
specifically by `received_password`, plus the catch-all kinds. -/
inductive TErr
  | phoneCodeInvalid
  | phoneNumberInvalid
  | passwordHashInvalid
  | sessionPasswordNeeded
  | generic
  deriving DecidableEq, Repr

/-- User-visible reply messages, abstracted from their exact wording. -/
inductive Msg
  | notConfigured
  | activeSessionRefusal
  | loginPrompt
  | invalidPhoneRetry
  | attemptingLogin
  | askCode
  | gotCode
  | alreadyProcessed
  | askPasswordMaybe
  | passwordReceived
  | loginSuccess (id : Nat)
  | loginFailed
  | loginUnclear
  | loginTimedOut
  | loginSpecificError (e : TErr)
  | loginUnexpected
  | noTaskError
  | cancelledMsg
  | loggedOutRemoved
  | loggedOutRemoveFailed
  | loggedOutNoFile
  | notLoggedIn
  deriving DecidableEq, Repr

/-- The slice of `context.user_data` used by the login conversation. -/
structure UserData where
  phone_to_login : Option String := none
  code_future : Option Future := none
  password_future : Option Future := none
  current_login_task : Option TState := none
  deriving DecidableEq

/-- `context.user_data.clear()`. -/
def UserData.clear : UserData := {}

/-! ## `add_user_id_to_store` (manager_and_bot.py lines 58-82)

The file `logged_in_user_ids.txt` is modelled as its list of lines (without
newline terminators); a missing file is the empty list. -/

/-- `add_user_id_to_store(user_id_to_add)`: read the stripped lines into a
set, and only when `str(uid)` is not already a line, rewrite the file with the
numerically sorted union of the parsable lines and the new id. -/
def add_user_id_to_store (lines : List String) (uid : Nat) : List String :=
  let stripped := lines.map pyStrip
  if digitsToString uid ∈ stripped then lines
  else
    let numeric : Finset Nat :=
      ((stripped.filter (fun s => pyIsDigit s)).map strToNat).toFinset
    ((insert uid numeric).sort (· ≤ ·)).map digitsToString

/-- A file in the shape this store maintains: the canonical decimal lines of a
strictly increasing list of ids. -/
def NormalFile (lines : List String) : Prop :=
  ∃ l : List Nat, l.Sorted (· < ·) ∧ lines = l.map digitsToString

/-! ## Login conversation handlers (manager_and_bot.py lines 110-291) -/

/-- `login_entry` (lines 110-125): refuse when the bot is unconfigured; refuse
with a user-visible message when a registered task reports itself not done;
otherwise prompt for the phone number and enter `AWAIT_PHONE`. -/
def login_entry (apiConfigured : Bool) (reg : Registry) (uid : Nat) :
    ConvState × Msg :=
  if ¬apiConfigured then (.END, .notConfigured)
  else
    match reg.lookup uid with
    | some t => if ¬t.taskDone then (.END, .activeSessionRefusal)
                else (.AWAIT_PHONE, .loginPrompt)
    | none => (.AWAIT_PHONE, .loginPrompt)

/-- The phone validation of `received_phone` (line 132):
`phone.startswith('+') and phone[1:].isdigit() and len(phone) > 7`,
applied to the stripped message text. -/
def phoneCheckOk (phone : String) : Bool :=
  ((phone.data.headD ' ' == '+')
    && ((!(phone.data.drop 1).isEmpty) && (phone.data.drop 1).all Char.isDigit))
    && phone.data.length > 7

/-- Result of `received_phone`. -/
structure PhoneResult where
  conv : ConvState
  ud : UserData
  reg : Registry
  msgs : List Msg
  deriving DecidableEq

/-- `received_phone` (lines 127-179): validate the stripped text; on failure
re-prompt and stay in `AWAIT_PHONE`; on success store the phone, create both
pending futures, start the session task, register it under the bot user id
(dict assignment) and move to `AWAIT_CODE`. -/
def received_phone (uid : Nat) (text : String) (ud : UserData) (reg : Registry) :
    PhoneResult :=
  let phone := pyStrip text
  if ¬phoneCheckOk phone then
    ⟨.AWAIT_PHONE, ud, reg, [.invalidPhoneRetry]⟩
  else
    ⟨.AWAIT_CODE,
      { phone_to_login := some phone,
        code_future := some (none : Option (Option String)),
        password_future := some (none : Option (Option String)),
        current_login_task := some .authenticating },
      reg.insertR uid .authenticating,
      [.attemptingLogin, .askCode]⟩

/-- `get_code_from_bot_callback` (lines 143-151): await the code future for at
most 300 s; `fAtDeadline` is the future's state when the wait ends (still
pending exactly when the 300 s elapsed). A timeout returns `None`, as does a
future fulfilled with the sentinel. -/
def get_code_from_bot_callback (fAtDeadline : Future) : Option String :=
  match (fAtDeadline : Option (Option String)) with
  | some v => v
  | none => none

/-- `get_password_from_bot_callback` (lines 153-160): same shape for the
password future. -/
def get_password_from_bot_callback (fAtDeadline : Future) : Option String :=
  match (fAtDeadline : Option (Option String)) with
  | some v => v
  | none => none

/-- Result of `received_code`. -/
structure CodeResult where
  conv : ConvState
  ud : UserData
  msgs : List Msg
  raised : Bool
  deriving DecidableEq

/-- `received_code` (lines 182-204): when the code future exists and is not
done, fulfill it with the stripped text and announce progress; otherwise reply
that the code was already processed. Either way, move to `AWAIT_PASSWORD`. -/
def received_code (text : String) (ud : UserData) : CodeResult :=
  let code := pyStrip text
  match ud.code_future with
  | some f =>
    if ¬f.done then
      match f.set_result (some code) with
      | .ok f2 =>
        ⟨.AWAIT_PASSWORD, { ud with code_future := some f2 },
          [.gotCode, .askPasswordMaybe], false⟩
      | .error _ => ⟨.AWAIT_PASSWORD, ud, [], true⟩
    else ⟨.AWAIT_PASSWORD, ud, [.alreadyProcessed], false⟩
  | none => ⟨.AWAIT_PASSWORD, ud, [.alreadyProcessed], false⟩

/-- Outcome of `await asyncio.wait_for(login_task, timeout=30.0)` in
`received_password`. -/
inductive AwaitTaskOutcome
  | completed (r : Option Nat)
  | timedOut
  | raisedSpecific (e : TErr)
  | raisedOther
  deriving DecidableEq

/-- Result of `received_password`. -/
structure PwResult where
  conv : ConvState
  ud : UserData
  reg : Registry
  msgs : List Msg
  storedId : Option Nat
  passFut : Option Future
  raised : Bool
  deriving DecidableEq

/-- `received_password` (lines 206-269): fulfill the password future when
pending, then await the login task. Success stores the account id in the
durable id list and keeps the registry entry; every failure outcome informs
the user and pops the entry; `finally` clears the user data and ends the
conversation. -/
def received_password (uid : Nat) (text : String) (ud : UserData) (reg : Registry)
    (outcome : AwaitTaskOutcome) : PwResult :=
  let password := pyStrip text
  let pwMsgs : List Msg :=
    match ud.password_future with
    | some f => if ¬f.done then [.passwordReceived] else []
    | none => []
  let pwFut : Option Future :=
    match ud.password_future with
    | some f => if ¬f.done then some ((some (some password)) : Future) else some f
    | none => none
  match ud.current_login_task with
  | some _ =>
    match outcome with
    | .completed (some id) =>
      ⟨.END, UserData.clear, reg, pwMsgs ++ [.loginSuccess id], some id, pwFut, false⟩
    | .completed none =>
      ⟨.END, UserData.clear, (reg.popR uid).1, pwMsgs ++ [.loginFailed], none, pwFut, false⟩
    | .timedOut =>
      ⟨.END, UserData.clear, (reg.popR uid).1, pwMsgs ++ [.loginTimedOut], none, pwFut, false⟩
    | .raisedSpecific e =>
      ⟨.END, UserData.clear, (reg.popR uid).1,
        pwMsgs ++ [.loginSpecificError e], none, pwFut, false⟩
    | .raisedOther =>
      ⟨.END, UserData.clear, (reg.popR uid).1, pwMsgs ++ [.loginUnexpected], none, pwFut, false⟩
  | none =>
    ⟨.END, UserData.clear, reg, pwMsgs ++ [.noTaskError], none, pwFut, false⟩

/-- Result of `cancel_login`: the final states of the two future objects (as
the session task callbacks observe them), the registry, the popped task after
the cancel call, the cleared user data and the terminal conversation state. -/
structure CancelResult where
  conv : ConvState
  ud : UserData
  codeFut : Option Future
  passFut : Option Future
  reg : Registry
  taskAfter : Option TState
  msgs : List Msg
  deriving DecidableEq

/-- `cancel_login` (lines 271-291): announce the cancellation, fulfill each
still-pending future with `None`, pop the registry entry, cancel the popped
task when it is not done, and clear the conversation data. -/
def cancel_login (uid : Nat) (ud : UserData) (reg : Registry) : CancelResult :=
  let codeFut : Option Future :=
    match ud.code_future with
    | some f => if ¬f.done then some ((some none) : Future) else some f
    | none => none
  let passFut : Option Future :=
    match ud.password_future with
    | some f => if ¬f.done then some ((some none) : Future) else some f
    | none => none
  let popped := (reg.popR uid).2
  ⟨.END, UserData.clear, codeFut, passFut, (reg.popR uid).1,
    popped.map TState.cancel, [.cancelledMsg]⟩

/-- Result of `logout_command`. -/
structure LogoutResult where
  reg : Registry
  taskAfter : Option TState
  sessionFileRemoved : Bool
  msg : Msg
  deriving DecidableEq

/-- `logout_command` (lines 293-327): pop the registry entry. Only when an
entry was found: cancel its task when not done, and delete the session file
when it exists. Without an entry, only tell the user they were not logged
in. -/
def logout_command (uid : Nat) (reg : Registry) (sessionFileExists : Bool)
    (removeOk : Bool) : LogoutResult :=
  let (reg2, popped) := reg.popR uid
  match popped with
  | none => ⟨reg2, none, false, .notLoggedIn⟩
  | some t =>
    let t2 := t.cancel
    if sessionFileExists then
      if removeOk then ⟨reg2, some t2, true, .loggedOutRemoved⟩
      else ⟨reg2, some t2, false, .loggedOutRemoveFailed⟩
    else ⟨reg2, some t2, false, .loggedOutNoFile⟩

/-! ## `run_user_instance` (user_media_saver.py lines 13-232)

Each `await` on the account-client collaborator is an oracle outcome supplied
by the environment. `AwaitR` is the outcome of a collaborator call: a value, a
raised `TErr` (a Python `Exception`), or the delivery of an
`asyncio.CancelledError` (which, since Python 3.8, is a `BaseException` that
`except Exception` clauses do NOT catch). The rendezvous awaits
(`get_code_callback` / `get_password_callback`) return an `Option String` or
are themselves interrupted by cancellation (`CbR`). -/

inductive AwaitR (α : Type)
  | value (a : α)
  | raise (e : TErr)
  | cancelled
  deriving DecidableEq

/-- Outcome of awaiting one of the two bot callbacks. -/
inductive CbR
  | value (v : Option String)
  | cancelled
  deriving DecidableEq

/-- How the `run_user_instance` coroutine terminates: returning an id
(monitoring started), returning `None`, re-raising a specific login error, or
being killed by an uncaught `CancelledError`. -/
inductive SessRes
  | ok (id : Nat)
  | fail
  | raised (e : TErr)
  | cancelled
  deriving DecidableEq, Repr

/-- Terminal observation of `run_user_instance`: its result and whether the
account-client connection is still open when the coroutine terminates (for
`SessRes.ok` the connection is deliberately left open for the watch phase). -/
structure SessOut where
  res : SessRes
  connectedAtEnd : Bool
  deriving DecidableEq, Repr

/-- Oracle outcomes for one execution of `run_user_instance`. -/
structure SessEnv where
  connectResult : AwaitR Bool
  isAuthorized : Bool
  sendCodeResult : AwaitR Unit
  codeCb : CbR
  signInCode : AwaitR Nat
  passwordCb : CbR
  signInPassword : AwaitR Nat
  getMe : AwaitR (Option Nat)
  authorizedAfter : Bool
  sessionSaveOk : Bool
  deriving DecidableEq

/-- Lines 95-221 after a sign-in attempt or session reuse: re-check
authorization and `me`, persist the session file (an `IOError` reaches the
outer `except Exception` which disconnects and returns `None`), then start
the watch task and return the id with the connection open. -/
def afterAuth (env : SessEnv) (me : Option Nat) : SessOut :=
  if ¬env.authorizedAfter ∨ me = none then ⟨.fail, false⟩
  else if ¬env.sessionSaveOk then ⟨.fail, false⟩
  else
    match me with
    | some id => ⟨.ok id, true⟩
    | none => ⟨.fail, false⟩

/-- The `except` clauses of the inner `try` (lines 45-89): a
`SessionPasswordNeededError` runs the password branch; `PhoneCodeInvalidError`
and `PhoneNumberInvalidError` disconnect and re-raise; anything else
disconnects and returns `None`. The password branch awaits the password
callback (cancellable), treats `None` as failure, and handles its own
`sign_in(password)` errors: `PasswordHashInvalidError` disconnects and
re-raises, other exceptions disconnect and return `None`. -/
def innerDispatch (env : SessEnv) (e : TErr) : SessOut :=
  match e with
  | .sessionPasswordNeeded =>
    match env.passwordCb with
    | .cancelled => ⟨.cancelled, true⟩
    | .value none => ⟨.fail, false⟩
    | .value (some _) =>
      match env.signInPassword with
      | .cancelled => ⟨.cancelled, true⟩
      | .raise .passwordHashInvalid => ⟨.raised .passwordHashInvalid, false⟩
      | .raise _ => ⟨.fail, false⟩
      | .value me => afterAuth env (some me)
  | .phoneCodeInvalid => ⟨.raised .phoneCodeInvalid, false⟩
  | .phoneNumberInvalid => ⟨.raised .phoneNumberInvalid, false⟩
  | _ => ⟨.fail, false⟩

/-- `run_user_instance` as a function of its oracle environment. The outer
`except Exception` and the two specific handlers never see a
`CancelledError`: every `.cancelled` outcome terminates the coroutine with
the connection in whatever state it was (open after a successful connect). -/
def run_user_instance (env : SessEnv) : SessOut :=
  match env.connectResult with
  | .cancelled => ⟨.cancelled, false⟩
  | .raise e =>
    match e with
    | .phoneCodeInvalid => ⟨.raised e, false⟩
    | .phoneNumberInvalid => ⟨.raised e, false⟩
    | .passwordHashInvalid => ⟨.raised e, false⟩
    | _ => ⟨.fail, false⟩
  | .value false => ⟨.fail, false⟩
  | .value true =>
    if ¬env.isAuthorized then
      match env.sendCodeResult with
      | .cancelled => ⟨.cancelled, true⟩
      | .raise e => innerDispatch env e
      | .value _ =>
        match env.codeCb with
        | .cancelled => ⟨.cancelled, true⟩
        | .value none => ⟨.fail, false⟩
        | .value (some _) =>
          match env.signInCode with
          | .cancelled => ⟨.cancelled, true⟩
          | .raise e => innerDispatch env e
          | .value me => afterAuth env (some me)
    else
      match env.getMe with
      | .cancelled => ⟨.cancelled, true⟩
      | .raise e =>
        match e with
        | .phoneCodeInvalid => ⟨.raised e, false⟩
        | .phoneNumberInvalid => ⟨.raised e, false⟩
        | .passwordHashInvalid => ⟨.raised e, false⟩
        | _ => ⟨.fail, false⟩
      | .value me => afterAuth env me

/-! ## `handle_outgoing_reply` (user_media_saver.py lines 108-211)

Every collaborator call in the handler is an oracle outcome. `Except Nat` is
used for fallible calls: `.error k` is a raised exception identified by `k`.
The handler body is a straight-line translation; a raised exception that no
`try` in the handler catches appears in `RelayResult.raised` (Telethon's
dispatcher, outside the handler, is what then keeps the watch loop alive). -/

/-- The outgoing event that triggers the handler. -/
structure Event where
  is_reply : Bool
  raw_text : String
  sender_id : Nat
  deriving DecidableEq

/-- The fetched replied-to message. -/
structure TargetMsg where
  hasMedia : Bool
  deriving DecidableEq

/-- Status-message edits, identified by call site. -/
inductive EditTag
  | fetchErr
  | notFetched
  | noMedia
  | downloadErr
  | success
  | sendErr
  | notFoundAfter
  deriving DecidableEq, Repr

instance {ε α : Type} [DecidableEq ε] [DecidableEq α] : DecidableEq (Except ε α) := fun x y =>
  match x, y with
  | .ok a, .ok b =>
    if h : a = b then isTrue (by rw [h]) else isFalse (by intro hh; cases hh; exact h rfl)
  | .ok _, .error _ => isFalse (by intro hh; cases hh)
  | .error _, .ok _ => isFalse (by intro hh; cases hh)
  | .error a, .error b =>
    if h : a = b then isTrue (by rw [h]) else isFalse (by intro hh; cases hh; exact h rfl)

/-- Oracle outcomes for one invocation of the handler. Each
`edit*` field is the outcome of the corresponding (unguarded)
`status_msg.edit(...)` call site. -/
structure RelayEnv where
  replyOutcome : Except Nat Unit
  getMessagesOutcome : Except Nat (Option TargetMsg)
  getSenderOutcome : Except Nat (Option Nat)
  downloadOutcome : Except Nat (Option String)
  fileExistsAfterDownload : Bool
  sendFileOutcome : Except Nat Unit
  editFetchErr : Except Nat Unit
  editNotFetched : Except Nat Unit
  editNoMedia : Except Nat Unit
  editDownloadErr : Except Nat Unit
  editSuccess : Except Nat Unit
  editSendErr : Except Nat Unit
  editNotFoundAfter : Except Nat Unit
  removeOutcome : Except Nat Unit
  deriving DecidableEq

/-- Observable outcome of one handler invocation. -/
structure RelayResult where
  raised : Option Nat
  statusEdits : List EditTag
  statusDeleteDelay : Option Nat
  removeCalled : Bool
  fileRemoved : Bool
  forwarded : Bool
  deriving DecidableEq, Repr

/-- The handler result when the event does not match the trigger condition. -/
def relayNoop : RelayResult :=
  ⟨none, [], none, false, false, false⟩

/-- Lines 182-207: the `try: send_file ... except ... finally: os.remove`
block, entered once the download produced an existing file. The success edit
(line 189) sits inside the `try`, so its failure is caught by the
`except Exception as send_err` clause; the error edit (line 200) is not
guarded, so its failure propagates after the `finally` cleanup runs. -/
def sendAndCleanup (env : RelayEnv) (statusPosted : Bool) : RelayResult :=
  let removed := match env.removeOutcome with | .ok _ => true | .error _ => false
  match env.sendFileOutcome with
  | .ok _ =>
    if statusPosted then
      match env.editSuccess with
      | .ok _ => ⟨none, [.success], some 10, true, removed, true⟩
      | .error _ =>
        match env.editSendErr with
        | .ok _ => ⟨none, [.sendErr], none, true, removed, true⟩
        | .error e2 => ⟨some e2, [], none, true, removed, true⟩
    else ⟨none, [], none, true, removed, true⟩
  | .error _ =>
    if statusPosted then
      match env.editSendErr with
      | .ok _ => ⟨none, [.sendErr], none, true, removed, false⟩
      | .error e2 => ⟨some e2, [], none, true, removed, false⟩
    else ⟨none, [], none, true, removed, false⟩

/-- `handle_outgoing_reply`: guard on the trigger (reply + exact trigger text
+ expected sender), best-effort status post, guarded fetch of the replied-to
message, media check, unguarded sender resolution, guarded download, then
forward with cleanup. -/
def handle_outgoing_reply (trigger : String) (myId : Nat) (ev : Event)
    (env : RelayEnv) : RelayResult :=
  if ¬(ev.is_reply ∧ ev.raw_text = trigger) then relayNoop
  else if ev.sender_id ≠ myId then relayNoop
  else
    let statusPosted := match env.replyOutcome with | .ok _ => true | .error _ => false
    match env.getMessagesOutcome with
    | .error _ =>
      if statusPosted then
        match env.editFetchErr with
        | .ok _ => ⟨none, [.fetchErr], none, false, false, false⟩
        | .error e => ⟨some e, [], none, false, false, false⟩
      else ⟨none, [], none, false, false, false⟩
    | .ok none =>
      if statusPosted then
        match env.editNotFetched with
        | .ok _ => ⟨none, [.notFetched], none, false, false, false⟩
        | .error e => ⟨some e, [], none, false, false, false⟩
      else ⟨none, [], none, false, false, false⟩
    | .ok (some target) =>
      if ¬target.hasMedia then
        if statusPosted then
          match env.editNoMedia with
          | .ok _ => ⟨none, [.noMedia], some 5, false, false, false⟩
          | .error e => ⟨some e, [], none, false, false, false⟩
        else ⟨none, [], none, false, false, false⟩
      else
        match env.getSenderOutcome with
        | .error e => ⟨some e, [], none, false, false, false⟩
        | .ok _ =>
          match env.downloadOutcome with
          | .error _ =>
            if statusPosted then
              match env.editDownloadErr with
              | .ok _ => ⟨none, [.downloadErr], none, false, false, false⟩
              | .error e => ⟨some e, [], none, false, false, false⟩
            else ⟨none, [], none, false, false, false⟩
          | .ok none =>
            if statusPosted then
              match env.editDownloadErr with
              | .ok _ => ⟨none, [.downloadErr], none, false, false, false⟩
              | .error e => ⟨some e, [], none, false, false, false⟩
            else ⟨none, [], none, false, false, false⟩
          | .ok (some _) =>
            if env.fileExistsAfterDownload then
              sendAndCleanup env statusPosted
            else
              if statusPosted then
                match env.editNotFoundAfter with
                | .ok _ => ⟨none, [.notFoundAfter], none, false, false, false⟩
                | .error e => ⟨some e, [], none, false, false, false⟩
              else ⟨none, [], none, false, false, false⟩

/-! ## Whole-system trace machine for one bot user

The handlers above are composed into a small-step system for a single bot
user id, to examine the single-active-session invariant across whole command
sequences. `tasks` is the list of every session task ever spawned for this
user (the asyncio tasks created by `received_phone`), `reg` the index of the
task currently registered in `active_user_telethon_tasks` (if any), `conv`
the login conversation state (`END` when no conversation is active —
`ConversationHandler` fires the `/login` entry point only then). -/

structure MSys where
  conv : ConvState
  reg : Option Nat
  tasks : List TState
  deriving DecidableEq, Repr

/-- The empty system: no conversation, no registry entry, no tasks. -/
def MSys.init : MSys := ⟨.END, none, []⟩

/-- The registered task's state, if any. -/
def MSys.regTask (s : MSys) : Option TState :=
  s.reg.bind (fun i => s.tasks.get? i)

/-- External events driving the system: front-channel commands/messages and
the scheduler completing the registered session task's authentication. -/
inductive MEv
  | loginCmd
  | phoneMsgValid
  | phoneMsgInvalid
  | codeMsg
  | authSucceed
  | authFail
  | pwMsgSuccess
  | pwMsgFail
  | cancelCmd
  | logoutCmd
  deriving DecidableEq, Repr

/-- The `login_entry` guard condition on the registered task:
`user_id in active_user_telethon_tasks and not ...done()` negated — true when
a new login may proceed. -/
def MSys.regTaskDone (s : MSys) : Bool :=
  match s.regTask with
  | some t => t.taskDone
  | none => true

/-- Cancel the registered task in the task list, as `task.cancel()` does. -/
def MSys.cancelReg (s : MSys) : List TState :=
  match s.reg with
  | some i =>
    match s.tasks.get? i with
    | some t => s.tasks.set i t.cancel
    | none => s.tasks
  | none => s.tasks

/-- One step of the system. `loginCmd` applies the `login_entry` guard
(lines 117-121): it is refused — conversation stays `END` — exactly when the
registered asyncio task reports itself not done. `phoneMsgValid` is
`received_phone` on a well-formed phone: it spawns a fresh `authenticating`
task and registers it. `authSucceed` is `run_user_instance` returning an id:
the asyncio task completes while its watch loop lives on (`watching`).
`pwMsgSuccess` / `pwMsgFail` are the outcomes of `received_password`
(lines 228-243: failure pops the entry, success keeps it). `cancelCmd` is
`cancel_login`, `logoutCmd` is `logout_command`. -/
def mstep (s : MSys) (e : MEv) : MSys :=
  match e with
  | .loginCmd =>
    if s.conv = .END ∧ s.regTaskDone then { s with conv := .AWAIT_PHONE } else s
  | .phoneMsgValid =>
    if s.conv = .AWAIT_PHONE then
      ⟨.AWAIT_CODE, some s.tasks.length, s.tasks ++ [.authenticating]⟩
    else s
  | .phoneMsgInvalid => s
  | .codeMsg => if s.conv = .AWAIT_CODE then { s with conv := .AWAIT_PASSWORD } else s
  | .authSucceed =>
    match s.reg with
    | some i =>
      if s.tasks.get? i = some .authenticating then
        { s with tasks := s.tasks.set i .watching }
      else s
    | none => s
  | .authFail =>
    match s.reg with
    | some i =>
      if s.tasks.get? i = some .authenticating then
        { s with tasks := s.tasks.set i .failed }
      else s
    | none => s
  | .pwMsgSuccess => if s.conv = .AWAIT_PASSWORD then { s with conv := .END } else s
  | .pwMsgFail =>
    if s.conv = .AWAIT_PASSWORD then ⟨.END, none, s.tasks⟩ else s
  | .cancelCmd =>
    if s.conv ≠ .END then ⟨.END, none, s.cancelReg⟩ else s
  | .logoutCmd => ⟨s.conv, none, s.cancelReg⟩

/-- Run a sequence of events from a state. -/
def mrun (s : MSys) (es : List MEv) : MSys :=
  es.foldl mstep s

/-- Number of live session tasks (authenticating or with a live watch loop)
ever spawned for this user. -/
def MSys.liveCount (s : MSys) : Nat :=
  (s.tasks.filter TState.live).length

/-- The double-login scenario: a full successful login, then a second
`/login` with a second valid phone while the first session's watch loop is
still running. -/
def doubleLoginTrace : List MEv :=
  [.loginCmd, .phoneMsgValid, .codeMsg, .authSucceed, .pwMsgSuccess,
   .loginCmd, .phoneMsgValid, .codeMsg, .authSucceed]

/-! ## Definitions used only to state claims -/

/-- The spec's phone-format predicate, stated from its words: a leading
`+` followed by at least 7 digits and nothing else. -/
def claimPhoneValid (s : String) : Bool :=
  ((s.data.headD ' ' == '+') && 7 ≤ (s.data.drop 1).length)
    && (s.data.drop 1).all Char.isDigit

/-- All seven status-edit call sites succeed. -/
def RelayEnv.editsOk (env : RelayEnv) : Prop :=
  env.editFetchErr = .ok () ∧ env.editNotFetched = .ok () ∧ env.editNoMedia = .ok ()
    ∧ env.editDownloadErr = .ok () ∧ env.editSuccess = .ok () ∧ env.editSendErr = .ok ()
    ∧ env.editNotFoundAfter = .ok ()

/-- A relay environment where every collaborator call succeeds. -/
def relayEnvAllOk : RelayEnv where
  replyOutcome := .ok ()
  getMessagesOutcome := .ok (some ⟨true⟩)
  getSenderOutcome := .ok (some 5)
  downloadOutcome := .ok (some "f")
  fileExistsAfterDownload := true
  sendFileOutcome := .ok ()
  editFetchErr := .ok ()
  editNotFetched := .ok ()
  editNoMedia := .ok ()
  editDownloadErr := .ok ()
  editSuccess := .ok ()
  editSendErr := .ok ()
  editNotFoundAfter := .ok ()
  removeOutcome := .ok ()

/-- A session environment where the task is cancelled while suspended at the
code rendezvous (`await get_code_callback()`): connect succeeded, the account
was not yet authorized, the code request was sent, then the coordinator's
`task.cancel()` delivers a `CancelledError` into the suspended await. -/
def cancelAtCodeEnv : SessEnv where
  connectResult := .value true
  isAuthorized := false
  sendCodeResult := .value ()
  codeCb := .cancelled
  signInCode := .value 0
  passwordCb := .value none
  signInPassword := .value 0
  getMe := .value none
  authorizedAfter := true
  sessionSaveOk := true

/-! ## General lemmas about the string and digit helpers -/

theorem digitChar_props : ∀ d < 10, (Nat.digitChar d).toNat - 48 = d
    ∧ (Nat.digitChar d).isDigit = true ∧ (Nat.digitChar d).isWhitespace = false := by
  decide

theorem map_id_of_forall {α : Type} (f : α → α) :
    ∀ l : List α, (∀ a ∈ l, f a = a) → l.map f = l
  | [], _ => rfl
  | a :: t, h => by
    rw [List.map_cons, h a (by simp),
      map_id_of_forall f t (fun b hb => h b (List.mem_cons_of_mem a hb))]

/-- Decimal print/parse round-trip: `int(str(n)) = n`. -/
theorem strToNat_digitsToString (n : Nat) : strToNat (digitsToString n) = n := by
  unfold digitsToString
  by_cases h0 : n = 0
  · subst h0; decide
  · simp only [h0, if_false]
    unfold strToNat
    show Nat.ofDigits 10
      ((((Nat.digits 10 n).reverse.map Nat.digitChar).map (fun c => c.toNat - 48)).reverse) = n
    rw [List.map_map, List.map_reverse, List.reverse_reverse]
    have hid : (Nat.digits 10 n).map ((fun c => c.toNat - 48) ∘ Nat.digitChar)
        = Nat.digits 10 n := by
      apply map_id_of_forall
      intro d hd
      exact (digitChar_props d (Nat.digits_lt_base (by norm_num) hd)).1
    rw [hid, Nat.ofDigits_digits]

/-- `str(n)` is injective (it has `int` as a left inverse). -/
theorem digitsToString_injective : Function.Injective digitsToString := by
  intro a b h
  have := congrArg strToNat h
  rwa [strToNat_digitsToString, strToNat_digitsToString] at this

/-- Every character of `str(n)` is an ASCII digit. -/
theorem digitsToString_chars_digit (n : Nat) :
    ∀ c ∈ (digitsToString n).data, c.isDigit = true ∧ c.isWhitespace = false := by
  intro c hc
  unfold digitsToString at hc
  by_cases h0 : n = 0
  · simp [h0] at hc
    subst hc; exact ⟨rfl, rfl⟩
  · simp only [h0, if_false] at hc
    change c ∈ (Nat.digits 10 n).reverse.map Nat.digitChar at hc
    rw [List.mem_map] at hc
    obtain ⟨d, hd, rfl⟩ := hc
    rw [List.mem_reverse] at hd
    have hlt := Nat.digits_lt_base (by norm_num) hd
    exact ⟨(digitChar_props d hlt).2.1, (digitChar_props d hlt).2.2⟩

theorem dropWhile_eq_self_of_none {α : Type} (p : α → Bool) (l : List α)
    (h : ∀ a ∈ l, p a = false) : l.dropWhile p = l := by
  cases l with
  | nil => rfl
  | cons a t => rw [List.dropWhile_cons, h a (by simp)]; simp

/-- Stripping a string without whitespace characters is the identity. -/
theorem stripChars_eq_self (l : List Char) (h : ∀ c ∈ l, c.isWhitespace = false) :
    stripChars l = l := by
  unfold stripChars
  rw [dropWhile_eq_self_of_none _ _ h,
    dropWhile_eq_self_of_none _ _ (fun c hc => h c (List.mem_reverse.mp hc)),
    List.reverse_reverse]

/-- `str(n).strip() = str(n)`. -/
theorem pyStrip_digitsToString (n : Nat) : pyStrip (digitsToString n) = digitsToString n := by
  unfold pyStrip
  rw [stripChars_eq_self _ (fun c hc => (digitsToString_chars_digit n c hc).2)]

/-- `str(n).isdigit()` holds. -/
theorem pyIsDigit_digitsToString (n : Nat) : pyIsDigit (digitsToString n) = true := by
  unfold pyIsDigit
  rw [Bool.and_eq_true]
  constructor
  · unfold digitsToString
    by_cases h0 : n = 0
    · simp [h0]
    · simp only [h0, if_false]
      have hne : Nat.digits 10 n ≠ [] := Nat.digits_ne_nil_iff_ne_zero.mpr h0
      cases hd : Nat.digits 10 n with
      | nil => exact absurd hd hne
      | cons a t => simp
  · rw [List.all_eq_true]
    intro c hc
    exact (digitsToString_chars_digit n c (by simpa using hc)).1


/-! ## Registry lemmas -/

theorem Registry.lookup_filter_ne (r : Registry) (k : Nat) :
    Registry.lookup (r.filter (fun p => p.1 != k)) k = none := by
  unfold Registry.lookup
  rw [Option.map_eq_none', List.find?_eq_none]
  intro x hx
  rw [List.mem_filter] at hx
  simp only [bne_iff_ne, ne_eq] at hx
  simp [hx.2]

theorem Registry.popR_lookup (r : Registry) (k : Nat) :
    Registry.lookup (r.popR k).1 k = none :=
  Registry.lookup_filter_ne r k

theorem Registry.filter_eq_self_of_lookup_none (r : Registry) (k : Nat)
    (h : r.lookup k = none) : r.filter (fun p => p.1 != k) = r := by
  rw [List.filter_eq_self]
  intro a ha
  unfold Registry.lookup at h
  rw [Option.map_eq_none', List.find?_eq_none] at h
  have := h a ha
  simpa using this

theorem Registry.lookup_insertR (r : Registry) (k : Nat) (v : TState) :
    Registry.lookup (r.insertR k v) k = some v := by
  unfold Registry.insertR Registry.lookup
  rw [List.find?_cons_of_pos _ (by simp)]
  rfl

/-! ## Claim theorems -/

/-- C1: the claim says a `/login` while a non-terminal session task is
registered is refused and that registering never leaves two live session
tasks for one user id. The code violates this: after a successful login the
registered asyncio task is `done()` (its watch loop lives in a separate
task), so a second `/login` passes the guard of `login_entry` (line 117) and
`received_phone` spawns and registers a second session while the first watch
loop still runs — two live session tasks for the same user id. -/
theorem C1_double_login_two_live_sessions :
    (mrun MSys.init (doubleLoginTrace.take 6)).conv = ConvState.AWAIT_PHONE
    ∧ (mrun MSys.init doubleLoginTrace).liveCount = 2
    ∧ (mrun MSys.init doubleLoginTrace).regTask = some TState.watching := by
  exact ⟨rfl, rfl, rfl⟩

/-- C2: each rendezvous future is fulfilled at most once. Once a future is
done, a further code message (`received_code`, line 189) and a `/cancel`
(`cancel_login`, lines 279-282) leave its stored value unchanged and raise
nothing, because every fulfillment call is guarded by `not fut.done()`. -/
theorem C2_futures_fulfilled_at_most_once (uid : Nat) (ud : UserData) (reg : Registry)
    (f g : Future) (text : String)
    (hc : ud.code_future = some f) (hf : f.done = true)
    (hp : ud.password_future = some g) (hg : g.done = true) :
    (received_code text ud).ud.code_future = some f
    ∧ (received_code text ud).raised = false
    ∧ (cancel_login uid ud reg).codeFut = some f
    ∧ (cancel_login uid ud reg).passFut = some g
    ∧ (∀ v, fulfillIfPending f v = .ok f) := by
  refine ⟨?_, ?_, ?_, ?_, ?_⟩ <;>
    simp [received_code, cancel_login, fulfillIfPending, hc, hf, hp, hg]

/-- Witness for C2 at a concrete conversation state whose code future holds
a submitted code and whose password future holds the sentinel. -/
theorem C2_witness :
    (received_code "11111"
        ⟨none, some ((some (some "54321")) : Future), some ((some none) : Future), none⟩).ud.code_future
      = some ((some (some "54321")) : Future)
    ∧ (received_code "11111"
        ⟨none, some ((some (some "54321")) : Future), some ((some none) : Future), none⟩).raised = false
    ∧ (cancel_login 3
        ⟨none, some ((some (some "54321")) : Future), some ((some none) : Future), none⟩ []).codeFut
      = some ((some (some "54321")) : Future)
    ∧ (cancel_login 3
        ⟨none, some ((some (some "54321")) : Future), some ((some none) : Future), none⟩ []).passFut
      = some ((some none) : Future)
    ∧ (∀ v, fulfillIfPending ((some (some "54321")) : Future) v
        = .ok ((some (some "54321")) : Future)) :=
  C2_futures_fulfilled_at_most_once 3
    ⟨none, some ((some (some "54321")) : Future), some ((some none) : Future), none⟩ []
    ((some (some "54321")) : Future) ((some none) : Future) "11111" rfl rfl rfl rfl

/-- C3: the claim says any pre-watch termination of the Session Task —
including a cancellation delivered while it is suspended at the code or the
password rendezvous — disconnects the client first. The code only
disconnects on `Exception` paths; `asyncio.CancelledError` derives from
`BaseException` (Python ≥ 3.8), so neither the inner nor the outer
`except Exception` (user_media_saver.py lines 86, 227) catches it, and the
coroutine terminates with the connection still open. -/
theorem C3_cancel_at_rendezvous_dangling :
    run_user_instance cancelAtCodeEnv = ⟨SessRes.cancelled, true⟩
    ∧ run_user_instance { cancelAtCodeEnv with
        codeCb := .value (some "1"),
        signInCode := .raise .sessionPasswordNeeded,
        passwordCb := .cancelled } = ⟨SessRes.cancelled, true⟩ := by
  exact ⟨rfl, rfl⟩

/-- C7 counterexample: the input `"+12345678900 "` (trailing blank) does not
have the claim's shape — a `+`, at least 7 digits, and nothing else — yet
`received_phone` advances to `AWAIT_CODE`, because line 130 strips the text
before validating it. -/
theorem C7_counterexample :
    claimPhoneValid "+12345678900 " = false
    ∧ (received_phone 7 "+12345678900 " {} []).conv = ConvState.AWAIT_CODE := by
  exact ⟨rfl, rfl⟩

/-- C10: a `/logout` for a user id with no registry entry deletes no session
file — the file-deletion branch (lines 315-325) is inside the `if task:`
branch — and only answers that the user was not logged in; conversely a
deleted file implies an entry was found. -/
theorem C10_logout_no_entry (uid : Nat) (reg : Registry) (fe ro : Bool)
    (h : reg.lookup uid = none) :
    (logout_command uid reg fe ro).sessionFileRemoved = false
    ∧ (logout_command uid reg fe ro).msg = Msg.notLoggedIn
    ∧ (logout_command uid reg fe ro).reg = reg
    ∧ ∀ (r : Registry) (u : Nat) (f o : Bool),
        (logout_command u r f o).sessionFileRemoved = true → ∃ t, r.lookup u = some t := by
  refine ⟨?_, ?_, ?_, ?_⟩
  · simp [logout_command, Registry.popR, h]
  · simp [logout_command, Registry.popR, h]
  · simp [logout_command, Registry.popR, h,
      Registry.filter_eq_self_of_lookup_none reg uid h]
  · intro r u f o hrem
    cases hl : r.lookup u with
    | none => simp [logout_command, Registry.popR, hl] at hrem
    | some t => exact ⟨t, rfl⟩

/-- Witness for C10 on the empty registry. -/
theorem C10_witness :
    (logout_command 1 [] true true).sessionFileRemoved = false
    ∧ (logout_command 1 [] true true).msg = Msg.notLoggedIn
    ∧ (logout_command 1 [] true true).reg = []
    ∧ ∀ (r : Registry) (u : Nat) (f o : Bool),
        (logout_command u r f o).sessionFileRemoved = true → ∃ t, r.lookup u = some t :=
  C10_logout_no_entry 1 [] true true rfl

theorem phoneCheckOk_eq_claim (s : String) : phoneCheckOk s = claimPhoneValid s := by
  unfold phoneCheckOk claimPhoneValid
  cases hd : s.data with
  | nil => rfl
  | cons c rest =>
    simp only [List.headD_cons, List.drop_succ_cons, List.drop_zero, List.length_cons]
    cases rest with
    | nil => simp
    | cons x xs =>
      have hg : (decide ((x :: xs).length + 1 > 7)) = (decide (7 ≤ (x :: xs).length)) := by
        rw [decide_eq_decide]
        omega
      rw [hg]
      cases c == '+' <;> cases (x :: xs).all Char.isDigit <;>
        cases decide (7 ≤ (x :: xs).length) <;> simp

/-- C7 (amended): `received_phone` advances to `AWAIT_CODE` exactly when the
input, after stripping surrounding whitespace, is a `+` followed by at least
7 digits and nothing else; otherwise it re-prompts, leaves the conversation
data and the registry unchanged, and stays in `AWAIT_PHONE`. On success the
new session task is registered under the user id. -/
theorem C7_phone_validation (uid : Nat) (text : String) (ud : UserData) (reg : Registry) :
    ((received_phone uid text ud reg).conv
        = if claimPhoneValid (pyStrip text) then ConvState.AWAIT_CODE else ConvState.AWAIT_PHONE)
    ∧ (claimPhoneValid (pyStrip text) = false →
        received_phone uid text ud reg
          = ⟨ConvState.AWAIT_PHONE, ud, reg, [Msg.invalidPhoneRetry]⟩)
    ∧ (claimPhoneValid (pyStrip text) = true →
        Registry.lookup (received_phone uid text ud reg).reg uid = some TState.authenticating) := by
  have hq := phoneCheckOk_eq_claim (pyStrip text)
  refine ⟨?_, ?_, ?_⟩
  · by_cases hv : claimPhoneValid (pyStrip text)
    · simp [received_phone, hq, hv]
    · simp only [Bool.not_eq_true] at hv
      simp [received_phone, hq, hv]
  · intro hv
    simp [received_phone, hq, hv]
  · intro hv
    simp [received_phone, hq, hv, Registry.lookup_insertR]

/-- Witness for C7 at the concrete valid input `"+12345678900"`. -/
theorem C7_witness :
    ((received_phone 7 "+12345678900" {} []).conv
        = if claimPhoneValid (pyStrip "+12345678900") then ConvState.AWAIT_CODE
          else ConvState.AWAIT_PHONE)
    ∧ (claimPhoneValid (pyStrip "+12345678900") = false →
        received_phone 7 "+12345678900" {} []
          = ⟨ConvState.AWAIT_PHONE, {}, [], [Msg.invalidPhoneRetry]⟩)
    ∧ (claimPhoneValid (pyStrip "+12345678900") = true →
        Registry.lookup (received_phone 7 "+12345678900" {} []).reg 7
          = some TState.authenticating) :=
  C7_phone_validation 7 "+12345678900" {} []

/-- C5: a code rendezvous still pending when the 300 s `wait_for` elapses
makes `get_code_from_bot_callback` return `None`; `run_user_instance` then
disconnects and returns `None` (lines 49-52); and the coordinator handler
that awaits the task (`received_password`, lines 238-240) reports a login
failure and drops the registry entry. -/
theorem C5_code_timeout_failure (env : SessEnv) (uid : Nat) (text : String)
    (ud : UserData) (reg : Registry) (t0 : TState)
    (h1 : env.connectResult = .value true) (h2 : env.isAuthorized = false)
    (h3 : env.sendCodeResult = .value ())
    (h4 : env.codeCb = .value (get_code_from_bot_callback none))
    (hud : ud.current_login_task = some t0) :
    get_code_from_bot_callback none = none
    ∧ run_user_instance env = ⟨SessRes.fail, false⟩
    ∧ Msg.loginFailed ∈ (received_password uid text ud reg (.completed none)).msgs
    ∧ Registry.lookup (received_password uid text ud reg (.completed none)).reg uid = none := by
  refine ⟨rfl, ?_, ?_, ?_⟩
  · simp [run_user_instance, h1, h2, h3, h4, get_code_from_bot_callback]
  · simp [received_password, hud]
  · simp [received_password, hud, Registry.popR_lookup]

/-- Witness for C5: concrete timed-out environment and conversation state. -/
theorem C5_witness :
    get_code_from_bot_callback none = none
    ∧ run_user_instance { cancelAtCodeEnv with codeCb := .value none }
      = ⟨SessRes.fail, false⟩
    ∧ Msg.loginFailed ∈ (received_password 3 "pw"
        ⟨none, none, none, some TState.authenticating⟩ [(3, TState.authenticating)]
        (.completed none)).msgs
    ∧ Registry.lookup (received_password 3 "pw"
        ⟨none, none, none, some TState.authenticating⟩ [(3, TState.authenticating)]
        (.completed none)).reg 3 = none :=
  C5_code_timeout_failure { cancelAtCodeEnv with codeCb := .value none } 3 "pw"
    ⟨none, none, none, some TState.authenticating⟩ [(3, TState.authenticating)]
    TState.authenticating rfl rfl rfl rfl rfl

/-- C6 counterexample: `/cancel` from `AWAIT_PASSWORD` after the code was
submitted (code future holds `"54321"`) and after the authentication already
returned (registered task `watching`). The code future does not end up
holding the "none" sentinel — `cancel_login` only fulfills still-pending
futures — and the popped task is `done()`, so `task.cancel()` is skipped and
its watch loop keeps running. -/
theorem C6_counterexample :
    (cancel_login 7
        ⟨some "+123", some ((some (some "54321")) : Future), some ((none : Option (Option String)) : Future),
          some TState.watching⟩
        [(7, TState.watching)]).codeFut ≠ some ((some none) : Future)
    ∧ (cancel_login 7
        ⟨some "+123", some ((some (some "54321")) : Future), some ((none : Option (Option String)) : Future),
          some TState.watching⟩
        [(7, TState.watching)]).taskAfter = some TState.watching
    ∧ TState.live TState.watching = true := by
  refine ⟨by decide, rfl, rfl⟩

/-- C6 (amended): `/cancel` from a non-terminal handshake state ends the
conversation, clears the conversation data, removes the registry entry,
fulfills each still-pending rendezvous future with the "none" sentinel
(already-fulfilled futures keep their value, so both end up fulfilled), and
cancels the popped task when its coroutine is still running (a task whose
authentication already returned — whose watch loop is live — is not
stopped). -/
theorem C6_cancel_cleanup (uid : Nat) (ud : UserData) (reg : Registry) (f g : Future)
    (hc : ud.code_future = some f) (hp : ud.password_future = some g) :
    (cancel_login uid ud reg).conv = ConvState.END
    ∧ (cancel_login uid ud reg).ud = UserData.clear
    ∧ Registry.lookup (cancel_login uid ud reg).reg uid = none
    ∧ (∃ v, (cancel_login uid ud reg).codeFut = some ((some v) : Future))
    ∧ (f.done = false → (cancel_login uid ud reg).codeFut = some ((some none) : Future))
    ∧ (∃ w, (cancel_login uid ud reg).passFut = some ((some w) : Future))
    ∧ (g.done = false → (cancel_login uid ud reg).passFut = some ((some none) : Future))
    ∧ (∀ t, reg.lookup uid = some t → t.taskDone = false →
        (cancel_login uid ud reg).taskAfter = some TState.cancelled) := by
  refine ⟨rfl, rfl, ?_, ?_, ?_, ?_, ?_, ?_⟩
  · simp [cancel_login, Registry.popR_lookup]
  · cases hfd : f.done with
    | false => exact ⟨none, by simp [cancel_login, hc, hfd]⟩
    | true =>
      obtain ⟨v, hv⟩ := Option.isSome_iff_exists.mp hfd
      subst hv
      exact ⟨v, by simp [cancel_login, hc, Future.done]⟩
  · intro hfd
    simp [cancel_login, hc, hfd]
  · cases hgd : g.done with
    | false => exact ⟨none, by simp [cancel_login, hp, hgd]⟩
    | true =>
      obtain ⟨w, hw⟩ := Option.isSome_iff_exists.mp hgd
      subst hw
      exact ⟨w, by simp [cancel_login, hp, Future.done]⟩
  · intro hgd
    simp [cancel_login, hp, hgd]
  · intro t hl hdone
    simp [cancel_login, Registry.popR, hl, TState.cancel, hdone]

/-- Witness for C6: `/cancel` from `AWAIT_CODE` with both futures pending and
an authenticating registered task. -/
theorem C6_witness :
    (cancel_login 3 ⟨some "+123", some ((none : Option (Option String)) : Future),
        some ((none : Option (Option String)) : Future), some TState.authenticating⟩
        [(3, TState.authenticating)]).conv = ConvState.END
    ∧ (cancel_login 3 ⟨some "+123", some ((none : Option (Option String)) : Future),
        some ((none : Option (Option String)) : Future), some TState.authenticating⟩
        [(3, TState.authenticating)]).ud = UserData.clear
    ∧ Registry.lookup (cancel_login 3 ⟨some "+123", some ((none : Option (Option String)) : Future),
        some ((none : Option (Option String)) : Future), some TState.authenticating⟩
        [(3, TState.authenticating)]).reg 3 = none
    ∧ (∃ v, (cancel_login 3 ⟨some "+123", some ((none : Option (Option String)) : Future),
        some ((none : Option (Option String)) : Future), some TState.authenticating⟩
        [(3, TState.authenticating)]).codeFut = some ((some v) : Future))
    ∧ (Future.done ((none : Option (Option String)) : Future) = false →
        (cancel_login 3 ⟨some "+123", some ((none : Option (Option String)) : Future),
        some ((none : Option (Option String)) : Future), some TState.authenticating⟩
        [(3, TState.authenticating)]).codeFut = some ((some none) : Future))
    ∧ (∃ w, (cancel_login 3 ⟨some "+123", some ((none : Option (Option String)) : Future),
        some ((none : Option (Option String)) : Future), some TState.authenticating⟩
        [(3, TState.authenticating)]).passFut = some ((some w) : Future))
    ∧ (Future.done ((none : Option (Option String)) : Future) = false →
        (cancel_login 3 ⟨some "+123", some ((none : Option (Option String)) : Future),
        some ((none : Option (Option String)) : Future), some TState.authenticating⟩
        [(3, TState.authenticating)]).passFut = some ((some none) : Future))
    ∧ (∀ t, Registry.lookup [(3, TState.authenticating)] 3 = some t → t.taskDone = false →
        (cancel_login 3 ⟨some "+123", some ((none : Option (Option String)) : Future),
        some ((none : Option (Option String)) : Future), some TState.authenticating⟩
        [(3, TState.authenticating)]).taskAfter = some TState.cancelled) :=
  C6_cancel_cleanup 3 ⟨some "+123", some ((none : Option (Option String)) : Future),
      some ((none : Option (Option String)) : Future), some TState.authenticating⟩
    [(3, TState.authenticating)] ((none : Option (Option String)) : Future)
    ((none : Option (Option String)) : Future) rfl rfl

/-- C4 counterexample: with every other call succeeding and the replied-to
message carrying media, a failure of `target_message.get_sender()`
(user_media_saver.py line 150, not wrapped in any `try`) propagates out of
the relay handler instead of being reported on the status message. -/
theorem C4_counterexample :
    (handle_outgoing_reply ".d" 5 ⟨true, ".d", 5⟩
      { relayEnvAllOk with getSenderOutcome := .error 7 }).raised = some 7 := by
  decide

/-- C4 (amended): errors in posting the status message, fetching the
replied-to message, downloading and forwarding are reported via the status
message (when one exists) and never propagate out of the relay handler,
provided that resolving the sender does not raise and the status-message
edits themselves succeed; an error from the unguarded sender resolution (or
from an unguarded status edit) propagates out of the handler — it is
Telethon's event dispatcher, outside the handler, that then keeps the watch
phase alive. -/
theorem C4_relay_errors_contained (trigger : String) (myId : Nat) (ev : Event)
    (env : RelayEnv) (sres : Option Nat)
    (hs : env.getSenderOutcome = .ok sres) (he : env.editsOk) :
    (handle_outgoing_reply trigger myId ev env).raised = none
    ∧ (∀ k target, env.replyOutcome = .ok () → ev.is_reply = true → ev.raw_text = trigger →
        ev.sender_id = myId → env.getMessagesOutcome = .ok (some target) →
        target.hasMedia = true → env.downloadOutcome = .error k →
        (handle_outgoing_reply trigger myId ev env).statusEdits = [EditTag.downloadErr]) := by
  obtain ⟨e1, e2, e3, e4, e5, e6, e7⟩ := he
  rcases env with ⟨ro, gm, gs, dl, fe, sf, f1, f2, f3, f4, f5, f6, f7, rm⟩
  rcases ev with ⟨ir, rt, sid⟩
  simp only at hs e1 e2 e3 e4 e5 e6 e7
  subst hs e1 e2 e3 e4 e5 e6 e7
  constructor
  · by_cases htrig : ir = true ∧ rt = trigger
    · obtain ⟨hir, hrt⟩ := htrig
      subst hir hrt
      by_cases hsid : sid = myId
      · subst hsid
        rcases gm with k | m
        · cases ro <;> simp [handle_outgoing_reply, relayNoop]
        · rcases m with _ | ⟨hm⟩
          · cases ro <;> simp [handle_outgoing_reply, relayNoop]
          · rcases hm with ⟨hmb⟩
            cases hmb
            · cases ro <;> simp [handle_outgoing_reply, relayNoop]
            · rcases dl with k | pth
              · cases ro <;> simp [handle_outgoing_reply, relayNoop]
              · rcases pth with _ | p
                · cases ro <;> simp [handle_outgoing_reply, relayNoop]
                · cases fe <;> cases ro <;> cases sf <;> cases rm <;>
                    simp [handle_outgoing_reply, relayNoop, sendAndCleanup]
      · simp [handle_outgoing_reply, hsid, relayNoop]
    · unfold handle_outgoing_reply
      rw [if_pos htrig]
      rfl
  · intro k target hro hir hrt hsid hgm hm hdl
    simp only at hro hir hrt hsid hgm hdl
    subst hro hir hrt hsid hgm hdl
    rcases target with ⟨hmf⟩
    simp only at hm
    subst hm
    unfold handle_outgoing_reply
    rw [if_neg (by simp), if_neg (by simp)]
    rfl

/-- Witness for C4: a relay run whose download fails while sender resolution
and the edits succeed; no exception leaves the handler and the status message
reports the download error. -/
theorem C4_witness :
    (handle_outgoing_reply ".d" 5 ⟨true, ".d", 5⟩
        { relayEnvAllOk with downloadOutcome := .error 3 }).raised = none
    ∧ (∀ k target,
        ({ relayEnvAllOk with downloadOutcome := .error 3 } : RelayEnv).replyOutcome = .ok () →
        (⟨true, ".d", 5⟩ : Event).is_reply = true → (⟨true, ".d", 5⟩ : Event).raw_text = ".d" →
        (⟨true, ".d", 5⟩ : Event).sender_id = 5 →
        ({ relayEnvAllOk with downloadOutcome := .error 3 } : RelayEnv).getMessagesOutcome
          = .ok (some target) →
        target.hasMedia = true →
        ({ relayEnvAllOk with downloadOutcome := .error 3 } : RelayEnv).downloadOutcome
          = .error k →
        (handle_outgoing_reply ".d" 5 ⟨true, ".d", 5⟩
          { relayEnvAllOk with downloadOutcome := .error 3 }).statusEdits
          = [EditTag.downloadErr]) :=
  C4_relay_errors_contained ".d" 5 ⟨true, ".d", 5⟩
    { relayEnvAllOk with downloadOutcome := .error 3 } (some 5) rfl
    ⟨rfl, rfl, rfl, rfl, rfl, rfl, rfl⟩

/-- C9: once the download produced an existing file, the `finally` clause
(lines 201-207) always runs the scratch-file removal, whatever the forward
outcome; and on forward success the status message is edited to success and
scheduled for deletion after the 10 s delay (lines 188-196). -/
theorem C9_cleanup_after_forward (trigger : String) (myId : Nat) (ev : Event)
    (env : RelayEnv) (p : String) (target : TargetMsg) (sres : Option Nat)
    (h1 : ev.is_reply = true) (h2 : ev.raw_text = trigger) (h3 : ev.sender_id = myId)
    (h4 : env.getMessagesOutcome = .ok (some target)) (h5 : target.hasMedia = true)
    (h6 : env.getSenderOutcome = .ok sres)
    (h7 : env.downloadOutcome = .ok (some p)) (h8 : env.fileExistsAfterDownload = true) :
    (handle_outgoing_reply trigger myId ev env).removeCalled = true
    ∧ (env.removeOutcome = .ok () →
        (handle_outgoing_reply trigger myId ev env).fileRemoved = true)
    ∧ (env.sendFileOutcome = .ok () → env.replyOutcome = .ok () → env.editSuccess = .ok () →
        (handle_outgoing_reply trigger myId ev env).statusEdits = [EditTag.success]
        ∧ (handle_outgoing_reply trigger myId ev env).statusDeleteDelay = some 10
        ∧ (handle_outgoing_reply trigger myId ev env).forwarded = true) := by
  rcases ev with ⟨ir, rt, sid⟩
  simp only at h1 h2 h3
  subst h1 h2 h3
  rcases target with ⟨hmf⟩
  simp only at h5
  subst h5
  have hbody : handle_outgoing_reply rt sid ⟨true, rt, sid⟩ env
      = sendAndCleanup env
          (match env.replyOutcome with | .ok _ => true | .error _ => false) := by
    unfold handle_outgoing_reply
    simp [h4, h6, h7, h8]
  rw [hbody]
  refine ⟨?_, ?_, ?_⟩
  · unfold sendAndCleanup
    cases env.sendFileOutcome <;> cases env.replyOutcome <;>
      cases env.editSuccess <;> cases env.editSendErr <;> simp
  · intro hrm
    unfold sendAndCleanup
    rw [hrm]
    cases env.sendFileOutcome <;> cases env.replyOutcome <;>
      cases env.editSuccess <;> cases env.editSendErr <;> simp
  · intro hsf hro hes
    unfold sendAndCleanup
    rw [hsf, hro, hes]
    simp

/-- Witness for C9: the all-success relay run. -/
theorem C9_witness :
    (handle_outgoing_reply ".d" 5 ⟨true, ".d", 5⟩ relayEnvAllOk).removeCalled = true
    ∧ (relayEnvAllOk.removeOutcome = .ok () →
        (handle_outgoing_reply ".d" 5 ⟨true, ".d", 5⟩ relayEnvAllOk).fileRemoved = true)
    ∧ (relayEnvAllOk.sendFileOutcome = .ok () → relayEnvAllOk.replyOutcome = .ok () →
        relayEnvAllOk.editSuccess = .ok () →
        (handle_outgoing_reply ".d" 5 ⟨true, ".d", 5⟩ relayEnvAllOk).statusEdits
          = [EditTag.success]
        ∧ (handle_outgoing_reply ".d" 5 ⟨true, ".d", 5⟩ relayEnvAllOk).statusDeleteDelay
          = some 10
        ∧ (handle_outgoing_reply ".d" 5 ⟨true, ".d", 5⟩ relayEnvAllOk).forwarded = true) :=
  C9_cleanup_after_forward ".d" 5 ⟨true, ".d", 5⟩ relayEnvAllOk "f" ⟨true⟩ (some 5)
    rfl rfl rfl rfl rfl rfl rfl rfl

/-! ## Durable id-store lemmas -/

theorem map_pyStrip_map_digits :
    ∀ l : List Nat, (l.map digitsToString).map pyStrip = l.map digitsToString
  | [] => rfl
  | a :: t => by
    simp only [List.map_cons, pyStrip_digitsToString, map_pyStrip_map_digits t]

theorem map_strToNat_map_digits :
    ∀ l : List Nat, (l.map digitsToString).map strToNat = l
  | [] => rfl
  | a :: t => by
    simp only [List.map_cons, strToNat_digitsToString, map_strToNat_map_digits t]

/-- When `str(uid)` is already one of the stripped lines, the store is left
untouched. -/
theorem add_eq_self_of_mem (ls : List String) (uid : Nat)
    (h : digitsToString uid ∈ ls.map pyStrip) : add_user_id_to_store ls uid = ls := by
  unfold add_user_id_to_store
  simp [h]

/-- After any add, `str(uid)` is among the stripped lines of the store. -/
theorem mem_stripped_after_add (ls : List String) (uid : Nat) :
    digitsToString uid ∈ (add_user_id_to_store ls uid).map pyStrip := by
  unfold add_user_id_to_store
  by_cases hg : digitsToString uid ∈ ls.map pyStrip
  · rw [if_pos hg]
    exact hg
  · simp only [hg, if_false]
    rw [map_pyStrip_map_digits]
    rw [List.mem_map_of_injective digitsToString_injective]
    rw [Finset.mem_sort]
    exact Finset.mem_insert_self uid _

/-- Evaluation of `str(n)` for one-digit ids. -/
theorem digitsToString_lt10 (n : Nat) (h1 : 0 < n) (h2 : n < 10) :
    digitsToString n = ⟨[Nat.digitChar n]⟩ := by
  unfold digitsToString
  rw [if_neg (Nat.pos_iff_ne_zero.mp h1),
    Nat.digits_def' (by norm_num : (1 : Nat) < 10) h1, Nat.div_eq_of_lt h2]
  simp [Nat.mod_eq_of_lt h2]

/-- C8: adding an id to the durable user-id list is idempotent; starting from
a well-formed store (the canonical lines of a strictly sorted id list —
which includes the empty or absent file), the store stays well-formed,
contains exactly one line for the added id, and hence stays deduplicated and
sorted ascending with one integer per line. -/
theorem C8_store_idempotent_sorted (lines : List String) (uid : Nat)
    (h : NormalFile lines) :
    (∀ ls : List String,
        add_user_id_to_store (add_user_id_to_store ls uid) uid = add_user_id_to_store ls uid)
    ∧ NormalFile (add_user_id_to_store lines uid)
    ∧ (add_user_id_to_store lines uid).count (digitsToString uid) = 1
    ∧ digitsToString uid ∈ add_user_id_to_store lines uid := by
  obtain ⟨l, hsort, rfl⟩ := h
  have hcond : (digitsToString uid ∈ ((l.map digitsToString).map pyStrip)) ↔ uid ∈ l := by
    rw [map_pyStrip_map_digits]
    exact List.mem_map_of_injective digitsToString_injective
  refine ⟨fun ls => add_eq_self_of_mem _ _ (mem_stripped_after_add ls uid), ?_, ?_, ?_⟩
  · by_cases hg : uid ∈ l
    · rw [add_eq_self_of_mem _ _ (hcond.mpr hg)]
      exact ⟨l, hsort, rfl⟩
    · unfold add_user_id_to_store
      rw [if_neg (fun hmem => hg (hcond.mp hmem))]
      refine ⟨_, Finset.sort_sorted_lt _, rfl⟩
  · by_cases hg : uid ∈ l
    · rw [add_eq_self_of_mem _ _ (hcond.mpr hg)]
      exact List.count_eq_one_of_mem
        ((hsort.nodup).map digitsToString_injective)
        ((List.mem_map_of_injective digitsToString_injective).mpr hg)
    · unfold add_user_id_to_store
      rw [if_neg (fun hmem => hg (hcond.mp hmem))]
      refine List.count_eq_one_of_mem
        ((Finset.sort_nodup _ _).map digitsToString_injective)
        ((List.mem_map_of_injective digitsToString_injective).mpr ?_)
      rw [Finset.mem_sort]
      exact Finset.mem_insert_self uid _
  · by_cases hg : uid ∈ l
    · rw [add_eq_self_of_mem _ _ (hcond.mpr hg)]
      exact (List.mem_map_of_injective digitsToString_injective).mpr hg
    · unfold add_user_id_to_store
      rw [if_neg (fun hmem => hg (hcond.mp hmem))]
      rw [List.mem_map_of_injective digitsToString_injective, Finset.mem_sort]
      exact Finset.mem_insert_self uid _

/-- Witness for C8: the store `["3", "7"]` with the new id `5`. -/
theorem C8_witness :
    (∀ ls : List String,
        add_user_id_to_store (add_user_id_to_store ls 5) 5 = add_user_id_to_store ls 5)
    ∧ NormalFile (add_user_id_to_store ["3", "7"] 5)
    ∧ (add_user_id_to_store ["3", "7"] 5).count (digitsToString 5) = 1
    ∧ digitsToString 5 ∈ add_user_id_to_store ["3", "7"] 5 :=
  C8_store_idempotent_sorted ["3", "7"] 5
    ⟨[3, 7], by decide, by
      rw [List.map_cons, List.map_cons, List.map_nil,
        digitsToString_lt10 3 (by norm_num) (by norm_num),
        digitsToString_lt10 7 (by norm_num) (by norm_num)]
      rfl⟩
